import Mathlib

/-!
# Shallow embedding of the Cityscope post routes

This file embeds the post aggregate of the Cityscope backend
(`backend/routes/posts.js` together with the schema in
`backend/models/Post.js`) and proves the specified properties about it.

Modelling conventions:
* Mongo ObjectIds (user and post ids) are modelled as `Nat`.
* Dates are modelled as `Nat` timestamps.
* A mongoose document collection is a `List Post` in insertion order;
  `findById` is the first document with the given id, `save` writes the
  updated document back in place, `findByIdAndDelete` removes it.
* JS array operations map as follows: `arr.includes(x)` (mongoose compares
  ObjectIds by value) is list membership, `arr.filter(id => id.toString()
  !== u.toString())` removes every occurrence of `u`, `arr.push(x)` appends.
* Each express handler becomes a function returning `Except Err α`; an
  `Except.error` response carries no updated store, i.e. the state is
  unchanged (the handlers return before any `save`).
* Mongo's `.sort({createdAt: -1})` is modelled as a stable insertion sort
  by `createdAt` descending over the stored order; `.skip`/`.limit`
  (mongo applies skip before limit regardless of builder-call order)
  become `List.drop`/`List.take`.
* The `location` filter `new RegExp(location, 'i')` is modelled, for
  literal patterns, as a case-insensitive substring test.
-/

namespace Cityscope

/-- An embedded reply (`postSchema.replies` entries in `models/Post.js`). -/
structure Reply where
  author : Nat
  content : String
  createdAt : Nat
deriving Repr, DecidableEq

/-- A post document (`postSchema` in `models/Post.js`). -/
structure Post where
  id : Nat
  author : Nat
  content : String
  postType : String
  location : String
  imageUrl : Option String
  likes : List Nat
  dislikes : List Nat
  replies : List Reply
  createdAt : Nat
deriving Repr, DecidableEq

/-- The stored collection of post documents, in insertion order. -/
abbrev Store := List Post

/-- Failure outcomes of the handlers: HTTP 400 for `validation` and
`invalidReaction`, 404 for `notFound`, 403 for `notAuthorized`, and
HTTP 500 for `serverError` (a mongoose save-time validation failure
caught by the route's catch block). -/
inductive Err where
  | validation
  | invalidReaction
  | notFound
  | notAuthorized
  | serverError
deriving Repr, DecidableEq

/-- Model of `Post.findById`: the first stored document with the given id. -/
def findById (s : Store) (i : Nat) : Option Post :=
  s.find? (fun p => p.id == i)

/-- Model of `post.save()` after mutating a fetched document: write the
updated document back over every stored document carrying its id. -/
def save (s : Store) (p : Post) : Store :=
  s.map (fun q => if q.id == p.id then p else q)

/-- The `validPostTypes` enum (`routes/posts.js` line 94). -/
def validPostTypes : List String := ["recommendation", "help", "update", "event"]

/-- Model of the mongoose `trim: true` setter on `location`
(`models/Post.js` lines 19-23), i.e. JavaScript `String.prototype.trim`:
strip whitespace from both ends. -/
def jsTrim (s : String) : String :=
  String.mk (((s.data.dropWhile Char.isWhitespace).reverse.dropWhile
    Char.isWhitespace).reverse)

/-- Handler `POST /` (create, `routes/posts.js` lines 81-144).  The image upload,
when present, happens before the document is built, so `imageUrl` is an
input here; `newId` and `time` stand for the ObjectId and timestamp the
store assigns.  The route checks the raw body fields; constructing the
document applies the schema's `trim` setter to `location`
(`models/Post.js` lines 19-23); `post.save()` then runs the schema's
`required` validator, which rejects a location that trimmed to the empty
string — the route's catch block surfaces that as HTTP 500
(`serverError`) with nothing persisted. -/
def createPost (s : Store) (u : Nat) (content postType location : String)
    (imageUrl : Option String) (newId time : Nat) :
    Except Err (Store × Post) :=
  if content = "" ∨ postType = "" ∨ location = "" then
    .error .validation
  else if content.length > 280 then
    .error .validation
  else if postType ∉ validPostTypes then
    .error .validation
  else
    let post : Post :=
      { id := newId, author := u, content := content, postType := postType
        location := jsTrim location, imageUrl := imageUrl
        likes := [], dislikes := [], replies := [], createdAt := time }
    if jsTrim location = "" then .error .serverError
    else .ok (s ++ [post], post)

/-- Handler `GET /:id` (`routes/posts.js` lines 63-78). -/
def getPost (s : Store) (i : Nat) : Except Err Post :=
  match findById s i with
  | none => .error .notFound
  | some p => .ok p

/-- Handler `PUT /:id` (update, `routes/posts.js` lines 147-182): content
validation, then existence, then ownership. -/
def updatePost (s : Store) (i u : Nat) (content : String) :
    Except Err (Store × Post) :=
  if content = "" then .error .validation
  else if content.length > 280 then .error .validation
  else
    match findById s i with
    | none => .error .notFound
    | some p =>
      if p.author ≠ u then .error .notAuthorized
      else
        let p' := { p with content := content }
        .ok (save s p', p')

/-- Handler `DELETE /:id` (`routes/posts.js` lines 185-205): existence, then
ownership, then `findByIdAndDelete`. -/
def deletePost (s : Store) (i u : Nat) : Except Err Store :=
  match findById s i with
  | none => .error .notFound
  | some p =>
    if p.author ≠ u then .error .notAuthorized
    else .ok (s.filter (fun q => q.id != i))

/-- Handler `POST /:id/replies` (`routes/posts.js` lines 208-244): content
validation, then existence, then append the reply. -/
def addReply (s : Store) (i u : Nat) (content : String) (time : Nat) :
    Except Err (Store × Reply) :=
  if content = "" then .error .validation
  else if content.length > 280 then .error .validation
  else
    match findById s i with
    | none => .error .notFound
    | some p =>
      let r : Reply := { author := u, content := content, createdAt := time }
      .ok (save s { p with replies := p.replies ++ [r] }, r)

/-- Model of `arr.filter(id => id.toString() !== userId.toString())`. -/
def removeUser (l : List Nat) (u : Nat) : List Nat :=
  l.filter (fun x => x != u)

/-- The body of a reaction set/clear response (`likes`, `dislikes`,
`userReaction` fields of the JSON reply). -/
structure ReactionResult where
  likes : Nat
  dislikes : Nat
  userReaction : Option String
deriving Repr, DecidableEq

/-- The `userReaction` field computed at `routes/posts.js` lines 313-314. -/
def userReactionOf (p : Post) (u : Nat) : Option String :=
  if u ∈ p.likes then some "like"
  else if u ∈ p.dislikes then some "dislike"
  else none

/-- The mutation of a fetched post performed by `POST /:id/reactions`
(`routes/posts.js` lines 279-305): `hasLiked`/`hasDisliked` are computed
first, then one of the six branches runs. -/
def reactionStep (p : Post) (u : Nat) (ty : String) : Post :=
  if ty = "like" then
    if u ∈ p.likes then
      { p with likes := removeUser p.likes u }
    else if u ∈ p.dislikes then
      { p with likes := p.likes ++ [u], dislikes := removeUser p.dislikes u }
    else
      { p with likes := p.likes ++ [u] }
  else
    if u ∈ p.dislikes then
      { p with dislikes := removeUser p.dislikes u }
    else if u ∈ p.likes then
      { p with dislikes := p.dislikes ++ [u], likes := removeUser p.likes u }
    else
      { p with dislikes := p.dislikes ++ [u] }

/-- Handler `POST /:id/reactions` (`routes/posts.js` lines 265-320): reaction-kind
validation, then existence, then the reaction step, then save. -/
def setReaction (s : Store) (i u : Nat) (ty : String) :
    Except Err (Store × ReactionResult) :=
  if ty = "like" ∨ ty = "dislike" then
    match findById s i with
    | none => .error .notFound
    | some p =>
      let p' := reactionStep p u ty
      .ok (save s p',
        { likes := p'.likes.length, dislikes := p'.dislikes.length
          userReaction := userReactionOf p' u })
  else .error .invalidReaction

/-- Handler `DELETE /:id/reactions` (`routes/posts.js` lines 323-349): existence,
then remove the user from both arrays and save. -/
def clearReaction (s : Store) (i u : Nat) :
    Except Err (Store × ReactionResult) :=
  match findById s i with
  | none => .error .notFound
  | some p =>
    let p' := { p with likes := removeUser p.likes u
                       dislikes := removeUser p.dislikes u }
    .ok (save s p',
      { likes := p'.likes.length, dislikes := p'.dislikes.length
        userReaction := none })

/-! ## Listing (`GET /`, `routes/posts.js` lines 33-60) -/

/-- Stable insertion step for sorting by `createdAt` descending: a document
is placed before the first stored document whose timestamp is not larger,
so documents with equal timestamps keep their stored order. -/
def insertDesc (p : Post) : List Post → List Post
  | [] => [p]
  | q :: qs => if q.createdAt ≤ p.createdAt then p :: q :: qs else q :: insertDesc p qs

/-- Stable sort by `createdAt` descending, modelling `.sort({createdAt: -1})`. -/
def sortDesc : List Post → List Post
  | [] => []
  | p :: ps => insertDesc p (sortDesc ps)

/-- Model of `new RegExp(location, 'i')` applied to a document's location,
for a literal pattern: case-insensitive substring match. -/
def locMatch (pat : String) (loc : String) : Bool :=
  decide (pat.toLower.toList <:+: loc.toLower.toList)

/-- The mongo filter built at `routes/posts.js` lines 37-39. -/
def postMatches (loc ty : Option String) (p : Post) : Bool :=
  (match loc with
   | none => true
   | some pat => locMatch pat p.location) &&
  (match ty with
   | none => true
   | some t => p.postType == t)

/-- The JSON body returned by `GET /`. -/
structure ListResult where
  posts : List Post
  totalPages : Nat
  currentPage : Nat
  total : Nat
deriving Repr, DecidableEq

/-- Model of `Math.ceil(total / limit)` on naturals. -/
def ceilDiv (a b : Nat) : Nat := (a + b - 1) / b

/-- Handler `GET /`: filter, sort by `createdAt` descending, skip
`(page-1)*limit`, take `limit`; `total` counts all matching documents and
`totalPages = ceil(total/limit)`. -/
def listPosts (s : Store) (loc ty : Option String) (page limit : Nat) : ListResult :=
  let matching := s.filter (postMatches loc ty)
  { posts := ((sortDesc matching).drop ((page - 1) * limit)).take limit
    totalPages := ceilDiv matching.length limit
    currentPage := page
    total := matching.length }

/-! ## Reaction state machine view and operation sequences -/

/-- A user's effective reaction toward a post, read off the document the
way `userReactionOf` reads it (likes checked first). -/
inductive RState where
  | noneR
  | liked
  | disliked
deriving Repr, DecidableEq

/-- The effective reaction of `u` on `p`. -/
def reactionState (p : Post) (u : Nat) : RState :=
  if u ∈ p.likes then .liked
  else if u ∈ p.dislikes then .disliked
  else .noneR

/-- Reaction kinds a client may request. -/
inductive RKind where
  | like
  | dislike
deriving Repr, DecidableEq

/-- The reaction kind denoted by a request-body `type` string. -/
def kindOf (ty : String) : RKind :=
  if ty = "like" then .like else .dislike

/-- Modelled from the spec: the three-state transition table of the
Reaction State Machine (spec section 4.2), used as the refinement target
for the code's `reactionStep`. -/
def specTransition : RState → RKind → RState
  | .noneR, .like => .liked
  | .noneR, .dislike => .disliked
  | .liked, .like => .noneR
  | .liked, .dislike => .disliked
  | .disliked, .like => .liked
  | .disliked, .dislike => .noneR

/-- The `userReaction` string a given effective state is reported as. -/
def stateStr : RState → Option String
  | .noneR => none
  | .liked => some "like"
  | .disliked => some "dislike"

/-- A reaction-modifying request against the store. -/
inductive ReactionOp where
  | setR (id u : Nat) (ty : String)
  | clearR (id u : Nat)

/-- Run one reaction request; a failed request leaves the store unchanged. -/
def applyOp (s : Store) : ReactionOp → Store
  | .setR i u ty =>
    match setReaction s i u ty with
    | .ok (s', _) => s'
    | .error _ => s
  | .clearR i u =>
    match clearReaction s i u with
    | .ok (s', _) => s'
    | .error _ => s

/-- Run a sequence of reaction requests. -/
def applyOps (s : Store) (ops : List ReactionOp) : Store :=
  ops.foldl applyOp s

/-- The likes and dislikes of a post mention no common user. -/
def disjointPost (p : Post) : Prop :=
  ∀ x, x ∈ p.likes → x ∉ p.dislikes

/-- Every stored post has disjoint likes and dislikes. -/
def storeDisjoint (s : Store) : Prop :=
  ∀ p ∈ s, disjointPost p

/-! ## State-unchanged wrappers: the store an operation leaves behind. -/

/-- The store after a create request (unchanged on failure). -/
def runCreate (s : Store) (u : Nat) (content postType location : String)
    (imageUrl : Option String) (newId time : Nat) : Store :=
  match createPost s u content postType location imageUrl newId time with
  | .ok (s', _) => s'
  | .error _ => s

/-- The store after an update request (unchanged on failure). -/
def runUpdate (s : Store) (i u : Nat) (content : String) : Store :=
  match updatePost s i u content with
  | .ok (s', _) => s'
  | .error _ => s

/-- The store after a delete request (unchanged on failure). -/
def runDelete (s : Store) (i u : Nat) : Store :=
  match deletePost s i u with
  | .ok s' => s'
  | .error _ => s

/-- The store after an add-reply request (unchanged on failure). -/
def runAddReply (s : Store) (i u : Nat) (content : String) (time : Nat) : Store :=
  match addReply s i u content time with
  | .ok (s', _) => s'
  | .error _ => s

/-- The store after a set-reaction request (unchanged on failure). -/
def runSetReaction (s : Store) (i u : Nat) (ty : String) : Store :=
  match setReaction s i u ty with
  | .ok (s', _) => s'
  | .error _ => s

/-- A sample post used to instantiate universally quantified theorems. -/
def samplePost (i t : Nat) (lk dk : List Nat) : Post :=
  { id := i, author := 1, content := "hello", postType := "help"
    location := "pune", imageUrl := none
    likes := lk, dislikes := dk, replies := [], createdAt := t }

/-! ## Basic lemmas about the store primitives -/

theorem mem_removeUser {l : List Nat} {u x : Nat} :
    x ∈ removeUser l u ↔ x ∈ l ∧ x ≠ u := by
  simp [removeUser, List.mem_filter]

theorem not_mem_removeUser_self (l : List Nat) (u : Nat) :
    u ∉ removeUser l u := by
  simp [mem_removeUser]

theorem findById_id {s : Store} {i : Nat} {p : Post}
    (h : findById s i = some p) : p.id = i := by
  have := List.find?_some h
  simpa using this

theorem mem_of_findById {s : Store} {i : Nat} {p : Post}
    (h : findById s i = some p) : p ∈ s :=
  List.mem_of_find?_eq_some h

theorem findById_save {s : Store} {i : Nat} {p p' : Post}
    (h : findById s i = some p) (hid : p'.id = i) :
    findById (save s p') i = some p' := by
  induction s with
  | nil => simp [findById] at h
  | cons q qs ih =>
    by_cases hq : q.id = i
    · have h1 : (q.id == p'.id) = true := by simp [hq, hid]
      have h2 : (p'.id == i) = true := by simp [hid]
      simp only [save, List.map_cons, findById, List.find?_cons, h1, if_true, h2]
    · have hqf : (q.id == i) = false := by simp [hq]
      have h' : findById qs i = some p := by
        simpa only [findById, List.find?_cons, hqf] using h
      have hqp : (q.id == p'.id) = false := by
        simp only [beq_eq_false_iff_ne, ne_eq, hid]
        exact hq
      simp only [save, List.map_cons, findById, List.find?_cons, hqp,
        Bool.false_eq_true, if_false, hqf]
      exact ih h'

theorem mem_save {s : Store} {p' q : Post} (h : q ∈ save s p') :
    q = p' ∨ q ∈ s := by
  simp only [save, List.mem_map] at h
  obtain ⟨x, hx, hxq⟩ := h
  by_cases hid : x.id = p'.id
  · left
    simpa [hid] using hxq.symm
  · right
    have : x = q := by simpa [hid] using hxq
    exact this ▸ hx

/-! ## Equation lemmas for the handlers -/

theorem setReaction_found {s : Store} {i u : Nat} {ty : String} {p : Post}
    (hty : ty = "like" ∨ ty = "dislike") (hfind : findById s i = some p) :
    setReaction s i u ty =
      .ok (save s (reactionStep p u ty),
        { likes := (reactionStep p u ty).likes.length
          dislikes := (reactionStep p u ty).dislikes.length
          userReaction := userReactionOf (reactionStep p u ty) u }) := by
  unfold setReaction
  rw [if_pos hty, hfind]

theorem setReaction_notFound {s : Store} {i u : Nat} {ty : String}
    (hty : ty = "like" ∨ ty = "dislike") (hfind : findById s i = none) :
    setReaction s i u ty = .error .notFound := by
  unfold setReaction
  rw [if_pos hty, hfind]

theorem setReaction_invalid {s : Store} {i u : Nat} {ty : String}
    (hty : ¬(ty = "like" ∨ ty = "dislike")) :
    setReaction s i u ty = .error .invalidReaction := by
  unfold setReaction
  rw [if_neg hty]

theorem clearReaction_found {s : Store} {i u : Nat} {p : Post}
    (hfind : findById s i = some p) :
    clearReaction s i u =
      .ok (save s { p with likes := removeUser p.likes u
                           dislikes := removeUser p.dislikes u },
        { likes := (removeUser p.likes u).length
          dislikes := (removeUser p.dislikes u).length
          userReaction := none }) := by
  unfold clearReaction
  rw [hfind]

theorem clearReaction_notFound {s : Store} {i u : Nat}
    (hfind : findById s i = none) :
    clearReaction s i u = .error .notFound := by
  unfold clearReaction
  rw [hfind]

/-! ## Disjointness preservation -/

theorem disjoint_reactionStep {p : Post} (u : Nat) (ty : String)
    (h : disjointPost p) : disjointPost (reactionStep p u ty) := by
  unfold reactionStep
  by_cases h1 : ty = "like"
  · rw [if_pos h1]
    by_cases h2 : u ∈ p.likes
    · rw [if_pos h2]
      intro x hx
      exact fun hm => h x (mem_removeUser.mp hx).1 hm
    · rw [if_neg h2]
      by_cases h3 : u ∈ p.dislikes
      · rw [if_pos h3]
        intro x hx hm
        have hm' := mem_removeUser.mp hm
        rcases List.mem_append.mp hx with hx1 | hx1
        · exact h x hx1 hm'.1
        · exact hm'.2 (List.mem_singleton.mp hx1)
      · rw [if_neg h3]
        intro x hx hm
        rcases List.mem_append.mp hx with hx1 | hx1
        · exact h x hx1 hm
        · exact h3 (List.mem_singleton.mp hx1 ▸ hm)
  · rw [if_neg h1]
    by_cases h3 : u ∈ p.dislikes
    · rw [if_pos h3]
      intro x hx hm
      exact h x hx (mem_removeUser.mp hm).1
    · rw [if_neg h3]
      by_cases h2 : u ∈ p.likes
      · rw [if_pos h2]
        intro x hx hm
        have hx' := mem_removeUser.mp hx
        rcases List.mem_append.mp hm with hm1 | hm1
        · exact h x hx'.1 hm1
        · exact hx'.2 (List.mem_singleton.mp hm1)
      · rw [if_neg h2]
        intro x hx hm
        rcases List.mem_append.mp hm with hm1 | hm1
        · exact h x hx hm1
        · exact h2 (List.mem_singleton.mp hm1 ▸ hx)

theorem disjoint_clearStep {p : Post} (u : Nat)
    (h : disjointPost p) :
    disjointPost { p with likes := removeUser p.likes u
                          dislikes := removeUser p.dislikes u } := by
  intro x hx
  simp only [mem_removeUser] at hx ⊢
  rintro ⟨hmem, _⟩
  exact h x hx.1 hmem

theorem storeDisjoint_save {s : Store} {p' : Post}
    (hs : storeDisjoint s) (hp : disjointPost p') :
    storeDisjoint (save s p') := by
  intro q hq
  rcases mem_save hq with rfl | hqs
  · exact hp
  · exact hs q hqs

theorem applyOp_disjoint {s : Store} (op : ReactionOp)
    (hs : storeDisjoint s) : storeDisjoint (applyOp s op) := by
  cases op with
  | setR i u ty =>
    by_cases hty : ty = "like" ∨ ty = "dislike"
    · cases hfind : findById s i with
      | none =>
        simp only [applyOp, setReaction_notFound hty hfind]
        exact hs
      | some p =>
        have hp : disjointPost p := hs p (mem_of_findById hfind)
        simp only [applyOp, setReaction_found hty hfind]
        exact storeDisjoint_save hs (disjoint_reactionStep u ty hp)
    · simp only [applyOp, setReaction_invalid hty]
      exact hs
  | clearR i u =>
    cases hfind : findById s i with
    | none =>
      simp only [applyOp, clearReaction_notFound hfind]
      exact hs
    | some p =>
      have hp : disjointPost p := hs p (mem_of_findById hfind)
      simp only [applyOp, clearReaction_found hfind]
      exact storeDisjoint_save hs (disjoint_clearStep u hp)

/-- C1: for every store whose posts all have disjoint likes/dislikes, after
any sequence of set-reaction and clear-reaction requests every post still
has disjoint likes/dislikes — no user is ever in both sets. -/
theorem reaction_ops_preserve_disjoint (s : Store) (ops : List ReactionOp)
    (hs : storeDisjoint s) : storeDisjoint (applyOps s ops) := by
  induction ops generalizing s with
  | nil => exact hs
  | cons op rest ih => exact ih _ (applyOp_disjoint op hs)

/-- Witness for C1: a concrete two-post store, initially disjoint, stays
disjoint after a concrete sequence of reaction requests. -/
theorem reaction_ops_preserve_disjoint_witness :
    storeDisjoint [samplePost 7 0 [1] [2], samplePost 8 0 [] []] ∧
    storeDisjoint (applyOps [samplePost 7 0 [1] [2], samplePost 8 0 [] []]
      [.setR 7 3 "like", .setR 7 3 "dislike", .setR 8 1 "dislike", .clearR 7 1]) := by
  have hs : storeDisjoint [samplePost 7 0 [1] [2], samplePost 8 0 [] []] := by
    intro p hp
    rcases List.mem_cons.mp hp with rfl | hp
    · intro x hx
      simp only [samplePost, List.mem_singleton] at hx ⊢
      omega
    · rcases List.mem_cons.mp hp with rfl | hp
      · intro x hx
        simp [samplePost] at hx
      · simp at hp
  exact ⟨hs, reaction_ops_preserve_disjoint _ _ hs⟩

/-! ## The reaction step against the spec's transition table -/

theorem reactionStep_id (p : Post) (u : Nat) (ty : String) :
    (reactionStep p u ty).id = p.id := by
  unfold reactionStep
  by_cases h1 : ty = "like" <;> by_cases h2 : u ∈ p.likes <;>
    by_cases h3 : u ∈ p.dislikes <;> simp [h1, h2, h3]

theorem reactionStep_mem {p : Post} {u : Nat} {ty : String}
    (hdisj : ¬(u ∈ p.likes ∧ u ∈ p.dislikes))
    (hty : ty = "like" ∨ ty = "dislike") :
    (u ∈ (reactionStep p u ty).likes ↔
      specTransition (reactionState p u) (kindOf ty) = .liked) ∧
    (u ∈ (reactionStep p u ty).dislikes ↔
      specTransition (reactionState p u) (kindOf ty) = .disliked) := by
  rcases hty with rfl | rfl
  · by_cases h2 : u ∈ p.likes
    · by_cases h3 : u ∈ p.dislikes
      · exact absurd ⟨h2, h3⟩ hdisj
      · simp [reactionStep, reactionState, kindOf, specTransition, h2, h3,
          mem_removeUser, List.mem_append]
    · by_cases h3 : u ∈ p.dislikes
      · simp [reactionStep, reactionState, kindOf, specTransition, h2, h3,
          mem_removeUser, List.mem_append]
      · simp [reactionStep, reactionState, kindOf, specTransition, h2, h3,
          mem_removeUser, List.mem_append]
  · by_cases h2 : u ∈ p.likes
    · by_cases h3 : u ∈ p.dislikes
      · exact absurd ⟨h2, h3⟩ hdisj
      · simp [reactionStep, reactionState, kindOf, specTransition, h2, h3,
          mem_removeUser, List.mem_append]
    · by_cases h3 : u ∈ p.dislikes
      · simp [reactionStep, reactionState, kindOf, specTransition, h2, h3,
          mem_removeUser, List.mem_append]
      · simp [reactionStep, reactionState, kindOf, specTransition, h2, h3,
          mem_removeUser, List.mem_append]

theorem reactionState_of_mem_iff {p : Post} {u : Nat} {st : RState}
    (h1 : u ∈ p.likes ↔ st = .liked) (h2 : u ∈ p.dislikes ↔ st = .disliked) :
    reactionState p u = st := by
  cases st <;> simp_all [reactionState]

theorem u_disjoint_of_mem_iff {p : Post} {u : Nat} {st : RState}
    (h1 : u ∈ p.likes ↔ st = .liked) (h2 : u ∈ p.dislikes ↔ st = .disliked) :
    ¬(u ∈ p.likes ∧ u ∈ p.dislikes) := by
  rintro ⟨hl, hd⟩
  rw [h1.mp hl] at h2
  simp at h2
  exact h2 hd

theorem userReactionOf_eq (p : Post) (u : Nat) :
    userReactionOf p u = stateStr (reactionState p u) := by
  unfold userReactionOf reactionState stateStr
  by_cases hl : u ∈ p.likes <;> by_cases hd : u ∈ p.dislikes <;> simp [hl, hd]

theorem applyOp_setR {s : Store} {i u : Nat} {ty : String} {p : Post}
    (hty : ty = "like" ∨ ty = "dislike") (hfind : findById s i = some p) :
    applyOp s (.setR i u ty) = save s (reactionStep p u ty) := by
  simp only [applyOp, setReaction_found hty hfind]

theorem findById_applyOp_setR {s : Store} {i u : Nat} {ty : String} {p : Post}
    (hty : ty = "like" ∨ ty = "dislike") (hfind : findById s i = some p) :
    findById (applyOp s (.setR i u ty)) i = some (reactionStep p u ty) := by
  rw [applyOp_setR hty hfind]
  exact findById_save hfind (by rw [reactionStep_id]; exact findById_id hfind)

theorem specTransition_like_like (st : RState) (h : st ≠ .liked) :
    specTransition (specTransition st .like) .like = .noneR := by
  cases st <;> simp_all [specTransition]

theorem specTransition_like_dislike (st : RState) :
    specTransition (specTransition st .like) .dislike = .disliked := by
  cases st <;> rfl

/-- C2 counterexample: on a post the user has already liked, two successive
like requests leave the user's effective reaction at Liked (toggle off then
back on), not at none, and the user is still in the likes set — refuting
the claim's "two successive setReaction(p,u,like) calls leave u's effective
reaction at none with u not in likes" for this initial state. -/
theorem setReaction_double_like_counterexample :
    (findById (applyOps [samplePost 7 0 [5] []]
        [.setR 7 5 "like", .setR 7 5 "like"]) 7).map (fun q => q.likes) =
      some [5] ∧
    (findById (applyOps [samplePost 7 0 [5] []]
        [.setR 7 5 "like", .setR 7 5 "like"]) 7).map (fun q => reactionState q 5) =
      some RState.liked := by
  exact ⟨rfl, rfl⟩

/-- C2 (amended): under the disjointness precondition, `setReaction`
follows the spec's three-state transition table and reports the resulting
state as `userReaction`; two successive like requests leave the user's
effective reaction at none with the user not in likes, provided the user's
initial effective reaction was not already Liked; a like request followed
by a dislike request always leaves the user in dislikes and not in likes. -/
theorem setReaction_follows_transition_table
    (s : Store) (i u : Nat) (p : Post) (ty : String)
    (hfind : findById s i = some p)
    (hdisj : ¬(u ∈ p.likes ∧ u ∈ p.dislikes))
    (hty : ty = "like" ∨ ty = "dislike") :
    (∃ s' res, setReaction s i u ty = .ok (s', res) ∧
      ∃ p', findById s' i = some p' ∧
        reactionState p' u = specTransition (reactionState p u) (kindOf ty) ∧
        (u ∈ p'.likes ↔ specTransition (reactionState p u) (kindOf ty) = .liked) ∧
        (u ∈ p'.dislikes ↔ specTransition (reactionState p u) (kindOf ty) = .disliked) ∧
        res.userReaction = stateStr (reactionState p' u) ∧
        res.likes = p'.likes.length ∧ res.dislikes = p'.dislikes.length) ∧
    (reactionState p u ≠ .liked →
      ∃ q, findById (applyOps s [.setR i u "like", .setR i u "like"]) i = some q ∧
        u ∉ q.likes ∧ reactionState q u = .noneR) ∧
    (∃ q, findById (applyOps s [.setR i u "like", .setR i u "dislike"]) i = some q ∧
      u ∈ q.dislikes ∧ u ∉ q.likes) := by
  have hlike : ("like" : String) = "like" ∨ ("like" : String) = "dislike" := Or.inl rfl
  have hdis : ("dislike" : String) = "like" ∨ ("dislike" : String) = "dislike" := Or.inr rfl
  obtain ⟨hm1, hm2⟩ := reactionStep_mem hdisj hty
  refine ⟨?_, ?_, ?_⟩
  · refine ⟨_, _, setReaction_found hty hfind, reactionStep p u ty,
      findById_save hfind (by rw [reactionStep_id]; exact findById_id hfind),
      reactionState_of_mem_iff hm1 hm2, hm1, hm2, ?_, rfl, rfl⟩
    exact userReactionOf_eq _ _
  · intro hnl
    obtain ⟨ha1, ha2⟩ := reactionStep_mem hdisj hlike
    have hfind₁ : findById (applyOp s (.setR i u "like")) i =
        some (reactionStep p u "like") := findById_applyOp_setR hlike hfind
    have hT1 : specTransition (reactionState p u) (kindOf "like") = .liked := by
      cases hst : reactionState p u with
      | noneR => rfl
      | liked => exact absurd hst hnl
      | disliked => rfl
    rw [hT1] at ha1 ha2
    simp only [iff_true] at ha1
    have ha2' : u ∉ (reactionStep p u "like").dislikes := by
      intro hmem
      exact RState.noConfusion (ha2.mp hmem)
    have hdisj₁ : ¬(u ∈ (reactionStep p u "like").likes ∧
        u ∈ (reactionStep p u "like").dislikes) := fun h => ha2' h.2
    obtain ⟨hb1, hb2⟩ := reactionStep_mem hdisj₁ hlike
    have hst₁ : reactionState (reactionStep p u "like") u = .liked := by
      simp [reactionState, ha1]
    rw [hst₁] at hb1 hb2
    have hT2 : specTransition RState.liked (kindOf "like") = .noneR := rfl
    rw [hT2] at hb1 hb2
    simp only [reduceCtorEq, iff_false] at hb1 hb2
    refine ⟨reactionStep (reactionStep p u "like") u "like",
      findById_applyOp_setR hlike hfind₁, hb1, ?_⟩
    simp [reactionState, hb1, hb2]
  · obtain ⟨ha1, ha2⟩ := reactionStep_mem hdisj hlike
    have hfind₁ : findById (applyOp s (.setR i u "like")) i =
        some (reactionStep p u "like") := findById_applyOp_setR hlike hfind
    have hdisj₁ : ¬(u ∈ (reactionStep p u "like").likes ∧
        u ∈ (reactionStep p u "like").dislikes) := u_disjoint_of_mem_iff ha1 ha2
    have hst₁ : reactionState (reactionStep p u "like") u =
        specTransition (reactionState p u) (kindOf "like") :=
      reactionState_of_mem_iff ha1 ha2
    obtain ⟨hb1, hb2⟩ := reactionStep_mem hdisj₁ hdis
    have hT2 : specTransition (reactionState (reactionStep p u "like") u)
        (kindOf "dislike") = .disliked := by
      rw [hst₁]
      exact specTransition_like_dislike (reactionState p u)
    rw [hT2] at hb1 hb2
    simp only [reduceCtorEq, iff_false, iff_true] at hb1 hb2
    exact ⟨reactionStep (reactionStep p u "like") u "dislike",
      findById_applyOp_setR hdis hfind₁, hb2, hb1⟩

/-- Witness for C2 (amended): on a fresh post, a like followed by a dislike
by user 5 leaves user 5 in dislikes and out of likes. -/
theorem setReaction_follows_transition_table_witness :
    findById [samplePost 7 0 [] []] 7 = some (samplePost 7 0 [] []) ∧
    ¬((5 : Nat) ∈ (samplePost 7 0 [] []).likes ∧
      (5 : Nat) ∈ (samplePost 7 0 [] []).dislikes) ∧
    (∃ q, findById (applyOps [samplePost 7 0 [] []]
        [.setR 7 5 "like", .setR 7 5 "dislike"]) 7 = some q ∧
      5 ∈ q.dislikes ∧ 5 ∉ q.likes) := by
  have h1 : findById [samplePost 7 0 [] []] 7 = some (samplePost 7 0 [] []) := rfl
  have h2 : ¬((5 : Nat) ∈ (samplePost 7 0 [] []).likes ∧
      (5 : Nat) ∈ (samplePost 7 0 [] []).dislikes) := by
    simp [samplePost]
  exact ⟨h1, h2,
    (setReaction_follows_transition_table _ 7 5 _ "like" h1 h2 (Or.inl rfl)).2.2⟩

/-! ## Equation lemmas for create / update / delete / reply -/

theorem updatePost_empty (s : Store) (i u : Nat) :
    updatePost s i u "" = .error .validation := by
  unfold updatePost
  rw [if_pos rfl]

theorem updatePost_long {content : String} (s : Store) (i u : Nat)
    (hlen : 280 < content.length) :
    updatePost s i u content = .error .validation := by
  unfold updatePost
  have hne : ¬content = "" := by
    intro h
    rw [h] at hlen
    simp at hlen
  rw [if_neg hne, if_pos hlen]

theorem updatePost_notFound {content : String} {s : Store} {i u : Nat}
    (hne : content ≠ "") (hlen : ¬280 < content.length)
    (hfind : findById s i = none) :
    updatePost s i u content = .error .notFound := by
  unfold updatePost
  rw [if_neg hne, if_neg hlen, hfind]

theorem updatePost_notAuthorized {content : String} {s : Store} {i u : Nat}
    {p : Post} (hne : content ≠ "") (hlen : ¬280 < content.length)
    (hfind : findById s i = some p) (hauth : p.author ≠ u) :
    updatePost s i u content = .error .notAuthorized := by
  unfold updatePost
  rw [if_neg hne, if_neg hlen, hfind]
  exact if_pos hauth

theorem deletePost_notFound {s : Store} {i u : Nat}
    (hfind : findById s i = none) :
    deletePost s i u = .error .notFound := by
  unfold deletePost
  rw [hfind]

theorem deletePost_notAuthorized {s : Store} {i u : Nat} {p : Post}
    (hfind : findById s i = some p) (hauth : p.author ≠ u) :
    deletePost s i u = .error .notAuthorized := by
  unfold deletePost
  rw [hfind]
  exact if_pos hauth

theorem addReply_empty (s : Store) (i u : Nat) (time : Nat) :
    addReply s i u "" time = .error .validation := by
  unfold addReply
  rw [if_pos rfl]

theorem addReply_long {content : String} (s : Store) (i u : Nat) (time : Nat)
    (hlen : 280 < content.length) :
    addReply s i u content time = .error .validation := by
  unfold addReply
  have hne : ¬content = "" := by
    intro h
    rw [h] at hlen
    simp at hlen
  rw [if_neg hne, if_pos hlen]

theorem createPost_ok {content postType location : String} (s : Store)
    (u : Nat) (imageUrl : Option String) (newId time : Nat)
    (hc : content ≠ "") (hlen : ¬280 < content.length)
    (hpt : postType ∈ validPostTypes) (hlt : jsTrim location ≠ "") :
    createPost s u content postType location imageUrl newId time =
      .ok (s ++ [{ id := newId, author := u, content := content
                   postType := postType, location := jsTrim location
                   imageUrl := imageUrl, likes := [], dislikes := []
                   replies := [], createdAt := time }],
           { id := newId, author := u, content := content
             postType := postType, location := jsTrim location
             imageUrl := imageUrl, likes := [], dislikes := []
             replies := [], createdAt := time }) := by
  have hptne : postType ≠ "" := by
    have h : postType = "recommendation" ∨ postType = "help" ∨
        postType = "update" ∨ postType = "event" := by
      simpa [validPostTypes] using hpt
    rcases h with rfl | rfl | rfl | rfl <;> decide
  have hloc : location ≠ "" := by
    intro h
    rw [h] at hlt
    exact hlt rfl
  unfold createPost
  rw [if_neg (by push_neg; exact ⟨hc, hptne, hloc⟩), if_neg hlen,
    if_neg (by simpa using hpt), if_neg hlt]

theorem createPost_whitespaceLocation {content postType location : String}
    (s : Store) (u : Nat) (imageUrl : Option String) (newId time : Nat)
    (hc : content ≠ "") (hlen : ¬280 < content.length)
    (hpt : postType ∈ validPostTypes) (hloc : location ≠ "")
    (hlt : jsTrim location = "") :
    createPost s u content postType location imageUrl newId time =
      .error .serverError := by
  have hptne : postType ≠ "" := by
    have h : postType = "recommendation" ∨ postType = "help" ∨
        postType = "update" ∨ postType = "event" := by
      simpa [validPostTypes] using hpt
    rcases h with rfl | rfl | rfl | rfl <;> decide
  unfold createPost
  rw [if_neg (by push_neg; exact ⟨hc, hptne, hloc⟩), if_neg hlen,
    if_neg (by simpa using hpt), if_pos hlt]

theorem createPost_emptyContent (s : Store) (u : Nat)
    (postType location : String) (imageUrl : Option String) (newId time : Nat) :
    createPost s u "" postType location imageUrl newId time =
      .error .validation := by
  unfold createPost
  rw [if_pos (Or.inl rfl)]

theorem createPost_long {content : String} (s : Store) (u : Nat)
    (postType location : String) (imageUrl : Option String) (newId time : Nat)
    (hlen : 280 < content.length) :
    createPost s u content postType location imageUrl newId time =
      .error .validation := by
  unfold createPost
  by_cases hbad : content = "" ∨ postType = "" ∨ location = ""
  · rw [if_pos hbad]
  · rw [if_neg hbad, if_pos hlen]

/-- C3: with a valid content payload, update and delete on an existing post
by a non-author fail with NotAuthorized and leave the store unchanged, and
update and delete on a nonexistent id fail with NotFound for every actor —
the existence check runs before the ownership check, so NotFound takes
precedence. -/
theorem update_delete_auth_and_notfound
    (s : Store) (i u : Nat) (c : String)
    (hne : c ≠ "") (hlen : ¬280 < c.length) :
    (findById s i = none →
      updatePost s i u c = .error .notFound ∧
      deletePost s i u = .error .notFound ∧
      runUpdate s i u c = s ∧ runDelete s i u = s) ∧
    (∀ p, findById s i = some p → p.author ≠ u →
      updatePost s i u c = .error .notAuthorized ∧
      deletePost s i u = .error .notAuthorized ∧
      runUpdate s i u c = s ∧ runDelete s i u = s) := by
  constructor
  · intro hfind
    have h1 : updatePost s i u c = .error .notFound :=
      updatePost_notFound hne hlen hfind
    have h2 : deletePost s i u = .error .notFound := deletePost_notFound hfind
    exact ⟨h1, h2, by unfold runUpdate; rw [h1], by unfold runDelete; rw [h2]⟩
  · intro p hfind hauth
    have h1 : updatePost s i u c = .error .notAuthorized :=
      updatePost_notAuthorized hne hlen hfind hauth
    have h2 : deletePost s i u = .error .notAuthorized :=
      deletePost_notAuthorized hfind hauth
    exact ⟨h1, h2, by unfold runUpdate; rw [h1], by unfold runDelete; rw [h2]⟩

/-- Witness for C3: actor 2 on a post authored by 1 gets NotAuthorized with
the store untouched; on an empty store both operations get NotFound. -/
theorem update_delete_auth_and_notfound_witness :
    ("x" : String) ≠ "" ∧ ¬280 < ("x" : String).length ∧
    (updatePost [samplePost 7 0 [] []] 7 2 "x" = .error .notAuthorized ∧
     deletePost [samplePost 7 0 [] []] 7 2 = .error .notAuthorized ∧
     runUpdate [samplePost 7 0 [] []] 7 2 "x" = [samplePost 7 0 [] []] ∧
     runDelete [samplePost 7 0 [] []] 7 2 = [samplePost 7 0 [] []]) ∧
    (updatePost [] 7 2 "x" = .error .notFound ∧
     deletePost [] 7 2 = .error .notFound ∧
     runUpdate [] 7 2 "x" = [] ∧
     runDelete [] 7 2 = []) := by
  have hne : ("x" : String) ≠ "" := by decide
  have hlen : ¬280 < ("x" : String).length := by decide
  refine ⟨hne, hlen, ?_, ?_⟩
  · exact (update_delete_auth_and_notfound [samplePost 7 0 [] []] 7 2 "x" hne hlen).2
      (samplePost 7 0 [] []) rfl (by decide)
  · exact (update_delete_auth_and_notfound [] 7 2 "x" hne hlen).1 rfl

/-- C4: a 280-character content creates successfully (appending exactly one
post), a 281-character content fails with ValidationError, an empty content
fails with ValidationError, and in the failing cases the store is
unchanged. -/
theorem create_content_boundaries
    (s : Store) (u : Nat) (pt loc : String) (iu : Option String)
    (nid t : Nat) (c280 c281 : String) :
    (c280.length = 280 → pt ∈ validPostTypes → jsTrim loc ≠ "" →
      ∃ post, createPost s u c280 pt loc iu nid t = .ok (s ++ [post], post) ∧
        post.content = c280) ∧
    (c281.length = 281 →
      createPost s u c281 pt loc iu nid t = .error .validation ∧
      runCreate s u c281 pt loc iu nid t = s) ∧
    (createPost s u "" pt loc iu nid t = .error .validation ∧
     runCreate s u "" pt loc iu nid t = s) := by
  refine ⟨?_, ?_, ?_⟩
  · intro h280 hpt hlt
    have hc : c280 ≠ "" := by
      intro h
      rw [h] at h280
      simp at h280
    have hlen : ¬280 < c280.length := by omega
    exact ⟨_, createPost_ok s u iu nid t hc hlen hpt hlt, rfl⟩
  · intro h281
    have hlen : 280 < c281.length := by omega
    have h := createPost_long s u pt loc iu nid t hlen
    exact ⟨h, by unfold runCreate; rw [h]⟩
  · have h := createPost_emptyContent s u pt loc iu nid t
    exact ⟨h, by unfold runCreate; rw [h]⟩

/-- Witness for C4: concrete 280- and 281-character strings behave as
stated on the empty store. -/
theorem create_content_boundaries_witness :
    (String.mk (List.replicate 280 'a')).length = 280 ∧
    ("help" : String) ∈ validPostTypes ∧ jsTrim "x" ≠ "" ∧
    (String.mk (List.replicate 281 'a')).length = 281 ∧
    (∃ post, createPost [] 1 (String.mk (List.replicate 280 'a'))
        "help" "x" none 9 0 = .ok ([] ++ [post], post) ∧
      post.content = String.mk (List.replicate 280 'a')) ∧
    (createPost [] 1 (String.mk (List.replicate 281 'a')) "help" "x" none 9 0 =
        .error .validation ∧
     runCreate [] 1 (String.mk (List.replicate 281 'a')) "help" "x" none 9 0 = []) ∧
    (createPost [] 1 "" "help" "x" none 9 0 = .error .validation ∧
     runCreate [] 1 "" "help" "x" none 9 0 = []) := by
  have h280 : (String.mk (List.replicate 280 'a')).length = 280 := by
    show (List.replicate 280 'a').length = 280
    rw [List.length_replicate]
  have h281 : (String.mk (List.replicate 281 'a')).length = 281 := by
    show (List.replicate 281 'a').length = 281
    rw [List.length_replicate]
  have hpt : ("help" : String) ∈ validPostTypes := by simp [validPostTypes]
  have hlt : jsTrim "x" ≠ "" := by decide
  obtain ⟨hA, hB, hC⟩ := create_content_boundaries [] 1 "help" "x" none 9 0
    (String.mk (List.replicate 280 'a')) (String.mk (List.replicate 281 'a'))
  exact ⟨h280, hpt, hlt, h281, hA h280 hpt hlt, hB h281, hC⟩

/-- C10: payload validation runs before the existence check — for every
store and id (in particular a nonexistent one), update and add-reply with
empty or over-280-character content fail with ValidationError, and
set-reaction with an unknown kind fails with InvalidReactionKind, never
NotFound; the store is unchanged in each case. -/
theorem validation_before_existence
    (s : Store) (i u : Nat) (c : String) (time : Nat) (ty : String) :
    (c = "" ∨ 280 < c.length →
      updatePost s i u c = .error .validation ∧
      addReply s i u c time = .error .validation ∧
      runUpdate s i u c = s ∧ runAddReply s i u c time = s) ∧
    (ty ≠ "like" → ty ≠ "dislike" →
      setReaction s i u ty = .error .invalidReaction ∧
      runSetReaction s i u ty = s) := by
  constructor
  · rintro (rfl | hlen)
    · have h1 := updatePost_empty s i u
      have h2 := addReply_empty s i u time
      exact ⟨h1, h2, by unfold runUpdate; rw [h1], by unfold runAddReply; rw [h2]⟩
    · have h1 := updatePost_long s i u hlen
      have h2 := addReply_long s i u time hlen
      exact ⟨h1, h2, by unfold runUpdate; rw [h1], by unfold runAddReply; rw [h2]⟩
  · intro hty1 hty2
    have h : setReaction s i u ty = .error .invalidReaction := by
      refine setReaction_invalid ?_
      rintro (h | h)
      · exact hty1 h
      · exact hty2 h
    exact ⟨h, by unfold runSetReaction; rw [h]⟩

/-- Witness for C10: on the empty store (so every id is nonexistent), empty
content and the unknown kind "meh" produce validation failures, never
NotFound, with the store unchanged. -/
theorem validation_before_existence_witness :
    (("" : String) = "" ∨ 280 < ("" : String).length) ∧
    ("meh" : String) ≠ "like" ∧ ("meh" : String) ≠ "dislike" ∧
    (updatePost [] 3 1 "" = .error .validation ∧
     addReply [] 3 1 "" 0 = .error .validation ∧
     runUpdate [] 3 1 "" = [] ∧ runAddReply [] 3 1 "" 0 = []) ∧
    (setReaction [] 3 1 "meh" = .error .invalidReaction ∧
     runSetReaction [] 3 1 "meh" = []) := by
  have h1 : ("" : String) = "" ∨ 280 < ("" : String).length := Or.inl rfl
  have h2 : ("meh" : String) ≠ "like" := by decide
  have h3 : ("meh" : String) ≠ "dislike" := by decide
  obtain ⟨hA, hB⟩ := validation_before_existence [] 3 1 "" 0 "meh"
  exact ⟨h1, h2, h3, hA h1, hB h2 h3⟩

/-- C6: clear-reaction removes the user from both likes and dislikes, so
any effective reaction transitions to none; the response reports the
updated counts and a null userReaction; and the operation fails only with
NotFound, exactly when the id is absent. -/
theorem clearReaction_spec (s : Store) (i u : Nat) :
    (findById s i = none → clearReaction s i u = .error .notFound) ∧
    (∀ e, clearReaction s i u = .error e → e = .notFound) ∧
    (∀ p, findById s i = some p →
      ∃ s' res, clearReaction s i u = .ok (s', res) ∧
        ∃ p', findById s' i = some p' ∧
          p'.likes = removeUser p.likes u ∧
          p'.dislikes = removeUser p.dislikes u ∧
          u ∉ p'.likes ∧ u ∉ p'.dislikes ∧
          reactionState p' u = .noneR ∧
          res.likes = p'.likes.length ∧ res.dislikes = p'.dislikes.length ∧
          res.userReaction = none) := by
  refine ⟨fun hfind => clearReaction_notFound hfind, ?_, ?_⟩
  · intro e he
    cases hfind : findById s i with
    | none =>
      rw [clearReaction_notFound hfind] at he
      injection he with h
      exact h.symm
    | some p =>
      rw [clearReaction_found hfind] at he
      exact Except.noConfusion he
  · intro p hfind
    refine ⟨_, _, clearReaction_found hfind, _,
      findById_save hfind ?_, rfl, rfl,
      not_mem_removeUser_self _ _, not_mem_removeUser_self _ _, ?_, rfl, rfl, rfl⟩
    · have hpid : p.id = i := findById_id hfind
      exact hpid
    · simp [reactionState, not_mem_removeUser_self]

/-- Witness for C6: clearing user 5's reaction on a post with
likes = [5] and dislikes = [6] leaves 5 in neither set. -/
theorem clearReaction_spec_witness :
    findById [samplePost 7 0 [5] [6]] 7 = some (samplePost 7 0 [5] [6]) ∧
    (∃ s' res, clearReaction [samplePost 7 0 [5] [6]] 7 5 = .ok (s', res) ∧
      ∃ p', findById s' 7 = some p' ∧
        p'.likes = removeUser (samplePost 7 0 [5] [6]).likes 5 ∧
        p'.dislikes = removeUser (samplePost 7 0 [5] [6]).dislikes 5 ∧
        5 ∉ p'.likes ∧ 5 ∉ p'.dislikes ∧
        reactionState p' 5 = .noneR ∧
        res.likes = p'.likes.length ∧ res.dislikes = p'.dislikes.length ∧
        res.userReaction = none) := by
  have h : findById [samplePost 7 0 [5] [6]] 7 = some (samplePost 7 0 [5] [6]) := rfl
  exact ⟨h, (clearReaction_spec [samplePost 7 0 [5] [6]] 7 5).2.2 _ h⟩

theorem findById_append_fresh {s : Store} {p : Post}
    (h : ∀ q ∈ s, q.id ≠ p.id) :
    findById (s ++ [p]) p.id = some p := by
  induction s with
  | nil => simp [findById]
  | cons q qs ih =>
    have hq : (q.id == p.id) = false := by
      simp only [beq_eq_false_iff_ne, ne_eq]
      exact h q (List.mem_cons_self q qs)
    simp only [List.cons_append, findById, List.find?_cons, hq]
    exact ih (fun r hr => h r (List.mem_cons_of_mem _ hr))

/-- C7 counterexample: creating with the padded location " delhi "
persists and returns the trimmed location "delhi" (the schema's trim
setter, `models/Post.js` lines 19-23), which differs from the input — so
create followed by get does not return a location identical to the
input. -/
theorem create_get_roundtrip_counterexample :
    (createPost [] 3 "hi" "event" " delhi " none 42 11).map
        (fun r => r.2.location) = .ok "delhi" ∧
    (createPost [] 3 "hi" "event" " delhi " none 42 11).map
        (fun r => (getPost r.1 42).map (fun p => p.location)) =
      .ok (.ok "delhi") ∧
    ("delhi" : String) ≠ " delhi " := by
  exact ⟨rfl, rfl, by decide⟩

/-- C7 (amended): a valid create followed by get on the new id returns a
post whose content, postType, author and imageUrl equal the inputs, whose
location is the trimmed input (the schema's trim setter; identical to the
input exactly when the input carries no surrounding whitespace), whose
likes, dislikes and replies are empty, and which carries the assigned id
and creation timestamp. -/
theorem create_get_roundtrip
    (s : Store) (u : Nat) (c pt loc : String) (iu : Option String)
    (nid t : Nat)
    (hc : c ≠ "") (hlen : ¬280 < c.length) (hpt : pt ∈ validPostTypes)
    (hlt : jsTrim loc ≠ "") (hfresh : ∀ q ∈ s, q.id ≠ nid) :
    ∃ s' post, createPost s u c pt loc iu nid t = .ok (s', post) ∧
      getPost s' nid = .ok post ∧
      post.content = c ∧ post.postType = pt ∧ post.location = jsTrim loc ∧
      post.author = u ∧ post.imageUrl = iu ∧
      post.likes = [] ∧ post.dislikes = [] ∧ post.replies = [] ∧
      post.id = nid ∧ post.createdAt = t := by
  refine ⟨_, _, createPost_ok s u iu nid t hc hlen hpt hlt, ?_,
    rfl, rfl, rfl, rfl, rfl, rfl, rfl, rfl, rfl, rfl⟩
  unfold getPost
  rw [findById_append_fresh hfresh]

/-- Witness for C7 (amended): a concrete valid create on the empty store
followed by get returns the same post with all fields as stated. -/
theorem create_get_roundtrip_witness :
    ("hi" : String) ≠ "" ∧ ¬280 < ("hi" : String).length ∧
    ("event" : String) ∈ validPostTypes ∧ jsTrim "delhi" ≠ "" ∧
    (∀ q ∈ ([] : Store), q.id ≠ 42) ∧
    (∃ s' post, createPost [] 3 "hi" "event" "delhi" (some "img") 42 11 =
        .ok (s', post) ∧
      getPost s' 42 = .ok post ∧ post.content = "hi" ∧
      post.postType = "event" ∧ post.location = jsTrim "delhi" ∧
      post.author = 3 ∧
      post.imageUrl = some "img" ∧ post.likes = [] ∧ post.dislikes = [] ∧
      post.replies = [] ∧ post.id = 42 ∧ post.createdAt = 11) := by
  have h1 : ("hi" : String) ≠ "" := by decide
  have h2 : ¬280 < ("hi" : String).length := by decide
  have h3 : ("event" : String) ∈ validPostTypes := by simp [validPostTypes]
  have h4 : jsTrim "delhi" ≠ "" := by decide
  have h5 : ∀ q ∈ ([] : Store), q.id ≠ 42 := by simp
  exact ⟨h1, h2, h3, h4, h5,
    create_get_roundtrip [] 3 "hi" "event" "delhi" (some "img") 42 11 h1 h2 h3 h4 h5⟩

/-! ## Lemmas about the stable sort used by listing -/

theorem mem_insertDesc {l : List Post} {p x : Post} :
    x ∈ insertDesc p l ↔ x = p ∨ x ∈ l := by
  induction l with
  | nil => simp [insertDesc]
  | cons q qs ih =>
    rw [insertDesc]
    by_cases h : q.createdAt ≤ p.createdAt
    · rw [if_pos h]
      simp [List.mem_cons]
    · rw [if_neg h]
      simp only [List.mem_cons, ih]
      tauto

theorem length_insertDesc (p : Post) (l : List Post) :
    (insertDesc p l).length = l.length + 1 := by
  induction l with
  | nil => rfl
  | cons q qs ih =>
    rw [insertDesc]
    by_cases h : q.createdAt ≤ p.createdAt
    · rw [if_pos h]
      rfl
    · rw [if_neg h]
      simp [List.length_cons, ih]

theorem length_sortDesc (l : List Post) : (sortDesc l).length = l.length := by
  induction l with
  | nil => rfl
  | cons p ps ih =>
    rw [sortDesc, length_insertDesc, ih]
    rfl

theorem pairwise_insertDesc {l : List Post} {p : Post}
    (h : l.Pairwise (fun a b => b.createdAt ≤ a.createdAt)) :
    (insertDesc p l).Pairwise (fun a b => b.createdAt ≤ a.createdAt) := by
  induction l with
  | nil => simp [insertDesc]
  | cons q qs ih =>
    rw [insertDesc]
    rcases List.pairwise_cons.mp h with ⟨hq, hqs⟩
    by_cases hle : q.createdAt ≤ p.createdAt
    · rw [if_pos hle]
      refine List.pairwise_cons.mpr ⟨?_, h⟩
      intro b hb
      rcases List.mem_cons.mp hb with rfl | hb
      · exact hle
      · exact le_trans (hq b hb) hle
    · rw [if_neg hle]
      refine List.pairwise_cons.mpr ⟨?_, ih hqs⟩
      intro b hb
      rcases mem_insertDesc.mp hb with rfl | hb
      · omega
      · exact hq b hb

theorem pairwise_sortDesc (l : List Post) :
    (sortDesc l).Pairwise (fun a b => b.createdAt ≤ a.createdAt) := by
  induction l with
  | nil => simp [sortDesc]
  | cons p ps ih =>
    rw [sortDesc]
    exact pairwise_insertDesc ih

theorem filter_insertDesc_ne {l : List Post} {p : Post} {f : Post → Bool}
    (hp : f p = false) : (insertDesc p l).filter f = l.filter f := by
  induction l with
  | nil => simp [insertDesc, hp]
  | cons q qs ih =>
    rw [insertDesc]
    by_cases h : q.createdAt ≤ p.createdAt
    · rw [if_pos h]
      simp [List.filter_cons, hp]
    · rw [if_neg h]
      simp [List.filter_cons, ih]

theorem filter_insertDesc_self {l : List Post} {p : Post}
    (h : l.Pairwise (fun a b => b.createdAt ≤ a.createdAt)) :
    (insertDesc p l).filter (fun q => q.createdAt == p.createdAt) =
      p :: l.filter (fun q => q.createdAt == p.createdAt) := by
  induction l with
  | nil => simp [insertDesc]
  | cons q qs ih =>
    rcases List.pairwise_cons.mp h with ⟨hq, hqs⟩
    rw [insertDesc]
    by_cases hle : q.createdAt ≤ p.createdAt
    · rw [if_pos hle]
      simp [List.filter_cons]
    · rw [if_neg hle]
      have hfq : (q.createdAt == p.createdAt) = false := by
        simp only [beq_eq_false_iff_ne, ne_eq]
        omega
      simp [List.filter_cons, hfq, ih hqs]

theorem sortDesc_stable (l : List Post) (t : Nat) :
    (sortDesc l).filter (fun q => q.createdAt == t) =
      l.filter (fun q => q.createdAt == t) := by
  induction l with
  | nil => rfl
  | cons p ps ih =>
    rw [sortDesc]
    by_cases hpt : p.createdAt = t
    · subst hpt
      rw [filter_insertDesc_self (pairwise_sortDesc ps), ih, List.filter_cons]
      simp
    · have hp : (p.createdAt == t) = false := by
        simp only [beq_eq_false_iff_ne, ne_eq]
        exact hpt
      rw [filter_insertDesc_ne hp, ih, List.filter_cons, hp]
      simp

/-- C5: listing returns the sorted matching posts from offset
`(page-1)*pageSize`, at most `pageSize` of them, in createdAt-descending
order, with `total` the number of matching posts and
`totalPages = ceil(total/pageSize)`; with 45 matching posts and pageSize
20, page 1 has 20 items and totalPages 3, and page 3 has 5 items. -/
theorem list_pagination (s : Store) (loc ty : Option String) (page limit : Nat) :
    (listPosts s loc ty page limit).posts =
      ((sortDesc (s.filter (postMatches loc ty))).drop ((page - 1) * limit)).take limit ∧
    (listPosts s loc ty page limit).posts.length ≤ limit ∧
    (listPosts s loc ty page limit).total = (s.filter (postMatches loc ty)).length ∧
    (listPosts s loc ty page limit).totalPages =
      ceilDiv (s.filter (postMatches loc ty)).length limit ∧
    (listPosts s loc ty page limit).posts.Pairwise
      (fun a b => b.createdAt ≤ a.createdAt) ∧
    ((s.filter (postMatches loc ty)).length = 45 →
      (listPosts s loc ty 1 20).posts.length = 20 ∧
      (listPosts s loc ty 1 20).totalPages = 3 ∧
      (listPosts s loc ty 3 20).posts.length = 5) := by
  refine ⟨rfl, ?_, rfl, rfl, ?_, ?_⟩
  · show (((sortDesc _).drop _).take limit).length ≤ limit
    rw [List.length_take]
    exact min_le_left _ _
  · exact List.Pairwise.sublist
      ((List.take_sublist _ _).trans (List.drop_sublist _ _)) (pairwise_sortDesc _)
  · intro h45
    have hlen := length_sortDesc (s.filter (postMatches loc ty))
    refine ⟨?_, ?_, ?_⟩
    · show (((sortDesc _).drop ((1 - 1) * 20)).take 20).length = 20
      rw [List.length_take, List.length_drop, hlen, h45]
      decide
    · show ceilDiv (s.filter (postMatches loc ty)).length 20 = 3
      rw [h45]
      decide
    · show (((sortDesc _).drop ((3 - 1) * 20)).take 20).length = 5
      rw [List.length_take, List.length_drop, hlen, h45]
      decide

/-- Witness for C5: a concrete 45-post store paginates as stated. -/
theorem list_pagination_witness :
    (((List.range 45).map (fun k => samplePost k k [] [])).filter
        (postMatches none none)).length = 45 ∧
    (listPosts ((List.range 45).map (fun k => samplePost k k [] []))
        none none 1 20).posts.length = 20 ∧
    (listPosts ((List.range 45).map (fun k => samplePost k k [] []))
        none none 1 20).totalPages = 3 ∧
    (listPosts ((List.range 45).map (fun k => samplePost k k [] []))
        none none 3 20).posts.length = 5 := by
  have h : (((List.range 45).map (fun k => samplePost k k [] [])).filter
      (postMatches none none)).length = 45 := by rfl
  obtain ⟨hA, hB, hC⟩ :=
    (list_pagination ((List.range 45).map (fun k => samplePost k k [] []))
      none none 1 20).2.2.2.2.2 h
  exact ⟨h, hA, hB, hC⟩

/-- C8 counterexample: three stored posts with ids 2, 1, 3 (in that stored
order) and identical createdAt come back from listing in stored order
[2, 1, 3], which is neither increasing nor decreasing in id — the sort key
is createdAt alone, so equal-timestamp posts are not ordered by any
secondary key such as id. -/
theorem list_no_secondary_tiebreak_counterexample :
    (listPosts [samplePost 2 5 [] [], samplePost 1 5 [] [], samplePost 3 5 [] []]
        none none 1 20).posts.map (fun p => p.id) = [2, 1, 3] ∧
    (listPosts [samplePost 2 5 [] [], samplePost 1 5 [] [], samplePost 3 5 [] []]
        none none 1 20).posts.map (fun p => p.createdAt) = [5, 5, 5] ∧
    ¬List.Pairwise (fun a b => a < b) [2, 1, 3] ∧
    ¬List.Pairwise (fun a b => a > b) [2, 1, 3] := by
  exact ⟨rfl, rfl, by decide, by decide⟩

/-- C8 (amended): listing orders posts by createdAt descending only; the
model's sort is stable, so posts with equal createdAt keep their relative
stored order rather than being reordered by a secondary key, and the
output is a deterministic function of the stored state. -/
theorem list_sorted_stable_no_tiebreak
    (s : Store) (loc ty : Option String) (page limit : Nat)
    (l : List Post) (t : Nat) :
    (listPosts s loc ty page limit).posts.Pairwise
      (fun a b => b.createdAt ≤ a.createdAt) ∧
    (sortDesc l).filter (fun q => q.createdAt == t) =
      l.filter (fun q => q.createdAt == t) := by
  constructor
  · exact List.Pairwise.sublist
      ((List.take_sublist _ _).trans (List.drop_sublist _ _)) (pairwise_sortDesc _)
  · exact sortDesc_stable l t

/-! ## The read-modify-write structure of the reaction handlers (C9) -/

end Cityscope
